import Mathlib

/-!
Shallow embedding of `matchdicom/matchdicom.py` (jtorniainen/match-dicom).

File-system entries are modelled abstractly: a directory listing is a list of
(filename, entry) pairs in listing order; an entry records what opening and
reading the file would observe (a directory, a file of the wrong format, or a
file of the right format together with the metadata fields the code reads).
Python exceptions are modelled with `Except PyError`; an exception caught by a
`try/except` clause in the source corresponds to an explicit branch on the
error value, and an uncaught exception propagates as `.error`.

Timestamps are `datetime.datetime` values produced by
`datetime.datetime.strptime(s, the Y:m:d H:M:S format)`.  A Python `datetime`
is exactly a whole number of microseconds on the proleptic Gregorian axis
(Python's `toordinal` axis), so timestamps are modelled as integers of
microseconds; `timedelta` subtraction is integer subtraction, and
`total_seconds()` is division by 10^6 as an exact rational (the float it
returns can never cross an integer-seconds boundary such as 2.0 at these
magnitudes, so `< 2.0` and `> 2` compare identically).
-/

deriving instance DecidableEq for Except

namespace MatchDicom

/-- Python exception classes that can reach the code under study.
`valueError` also stands for its subclass `UnicodeDecodeError`. -/
inductive PyError
  | invalidDicomError
  | isADirectoryError
  | valueError
  | keyError
  | attributeError
  | typeError
  | nameError
  deriving DecidableEq, Repr

/-- Value of the first TIFF page's datetime tag: raw bytes that either fail
`decode(the ascii codec)` (raising `UnicodeDecodeError`, a `ValueError`) or
decode to a string. -/
inductive TagValue
  | undecodable
  | str (s : String)
  deriving DecidableEq, Repr

/-- The metadata of an opened TIFF file that `_get_raw_timestamp` reads:
`pages[0].tags` either lacks the key `datetime` (lookup raises `KeyError`) or
holds a tag value. -/
structure TiffData where
  datetimeTag : Option TagValue
  deriving DecidableEq, Repr

/-- What `open_raw` (i.e. `tifffile.TiffFile(path)`) observes at a candidate
path: a directory (raises `IsADirectoryError`), a non-TIFF file (raises
`ValueError`), or a TIFF file with its metadata. -/
inductive RawEntry
  | directory
  | notTiff
  | tiff (data : TiffData)
  deriving DecidableEq, Repr

/-- The attributes of an opened DICOM dataset that the code reads.
`none` models the attribute being absent (`hasattr` false; direct access
raises `AttributeError`). -/
structure DicomFile where
  acquisitionDate : Option String
  acquisitionTime : Option String
  imageComments : Option String
  deriving DecidableEq, Repr

/-- What `open_dicom` (i.e. `dicom.read_file(path, stop_before_pixels=True)`)
observes at a reference path: a directory (raises `IsADirectoryError`), a
non-DICOM file (raises `InvalidDicomError`), or a DICOM dataset. -/
inductive DicomEntry
  | directory
  | notDicom
  | dicom (f : DicomFile)
  deriving DecidableEq, Repr

/-! ### strptime for the format `%Y:%m:%d %H:%M:%S`

CPython's `_strptime` compiles this format to the regex
`(\d\d\d\d):(1[0-2]|0[1-9]|[1-9]):(3[01]|[12]\d|0[1-9]|[1-9]) ...` — exactly
four digits for `%Y`, one or two digits (longest first) for the other fields —
requires the whole string to be consumed, and then `datetime.datetime(...)`
validates the ranges (year ≥ 1, day within the month, hour ≤ 23, minute ≤ 59,
second ≤ 59), raising `ValueError` on any failure.  `strptime` below returns
`none` exactly when `datetime.datetime.strptime` raises `ValueError`. -/

def digitVal (c : Char) : Nat := c.toNat - 48

/-- Consume exactly four digits. -/
def takeDigits4 (cs : List Char) : Option (Nat × List Char) :=
  match cs with
  | c1 :: c2 :: c3 :: c4 :: rest =>
    if c1.isDigit ∧ c2.isDigit ∧ c3.isDigit ∧ c4.isDigit then
      some (((digitVal c1 * 10 + digitVal c2) * 10 + digitVal c3) * 10 + digitVal c4, rest)
    else
      none
  | _ => none

/-- Consume one or two digits, longest match first (as the `1[0-2]|0[1-9]|[1-9]`
style alternations do on every input on which the overall pattern succeeds). -/
def takeDigits2 (cs : List Char) : Option (Nat × List Char) :=
  match cs with
  | c1 :: c2 :: rest =>
    if c1.isDigit then
      if c2.isDigit then some (digitVal c1 * 10 + digitVal c2, rest)
      else some (digitVal c1, c2 :: rest)
    else none
  | [c1] => if c1.isDigit then some (digitVal c1, []) else none
  | [] => none

/-- Consume one expected literal character of the format string. -/
def expectChar (c : Char) (cs : List Char) : Option (List Char) :=
  match cs with
  | c1 :: rest => if c1 = c then some rest else none
  | [] => none

def isLeapYear (y : Nat) : Bool :=
  (y % 4 == 0 && y % 100 != 0) || y % 400 == 0

def daysInMonth (y m : Nat) : Nat :=
  if m = 2 then (if isLeapYear y then 29 else 28)
  else if m = 4 ∨ m = 6 ∨ m = 9 ∨ m = 11 then 30
  else 31

/-- Days in year `y` strictly before month `m`. -/
def daysBeforeMonth (y m : Nat) : Nat :=
  (List.range (m - 1)).foldl (fun acc i => acc + daysInMonth y (i + 1)) 0

/-- Days strictly before year `y` on the proleptic Gregorian calendar, `y ≥ 1`. -/
def daysBeforeYear (y : Nat) : Nat :=
  (y - 1) * 365 + (y - 1) / 4 - (y - 1) / 100 + (y - 1) / 400

/-- Python's `datetime.date(y, m, d).toordinal()`. -/
def toOrdinal (y m d : Nat) : Nat :=
  daysBeforeYear y + daysBeforeMonth y m + d

/-- The `datetime` value `y-m-d h:mi:s` as microseconds: its value on the
axis used for subtraction.  `strptime` without a `%f` directive always
produces microsecond part 0. -/
def toMicros (y m d h mi s : Nat) : Int :=
  ((toOrdinal y m d * 86400 + h * 3600 + mi * 60 + s) * 1000000 : Nat)

/-- Split the input into the six numeric fields of `Y:m:d H:M:S`, requiring
the whole string to be consumed. -/
def parseFields (cs : List Char) : Option (Nat × Nat × Nat × Nat × Nat × Nat) :=
  match takeDigits4 cs with
  | none => none
  | some (y, r1) =>
    match expectChar ':' r1 with
    | none => none
    | some r2 =>
      match takeDigits2 r2 with
      | none => none
      | some (mo, r3) =>
        match expectChar ':' r3 with
        | none => none
        | some r4 =>
          match takeDigits2 r4 with
          | none => none
          | some (d, r5) =>
            match expectChar ' ' r5 with
            | none => none
            | some r6 =>
              match takeDigits2 r6 with
              | none => none
              | some (h, r7) =>
                match expectChar ':' r7 with
                | none => none
                | some r8 =>
                  match takeDigits2 r8 with
                  | none => none
                  | some (mi, r9) =>
                    match expectChar ':' r9 with
                    | none => none
                    | some r10 =>
                      match takeDigits2 r10 with
                      | none => none
                      | some (sec, r11) =>
                        if r11 = [] then some (y, mo, d, h, mi, sec) else none

/-- Model of `datetime.datetime.strptime(s, the Y:m:d H:M:S format)`:
`some t` on success, `none` when Python raises `ValueError`. -/
def strptime (s : String) : Option Int :=
  match parseFields s.data with
  | none => none
  | some (y, mo, d, h, mi, sec) =>
    if 1 ≤ y ∧ 1 ≤ mo ∧ mo ≤ 12 ∧ 1 ≤ d ∧ d ≤ daysInMonth y mo ∧
        h ≤ 23 ∧ mi ≤ 59 ∧ sec ≤ 59 then
      some (toMicros y mo d h mi sec)
    else
      none

/-- Python string slicing `s[a:b]` for `0 ≤ a ≤ b` (clamping at the ends). -/
def pySlice (s : String) (a b : Nat) : String :=
  ((s.data.drop a).take (b - a)).asString

/-! ### File handlers and timestamp extraction -/

/-- `open_dicom`: `dicom.read_file` raises `InvalidDicomError` on a non-DICOM
file and `IsADirectoryError` on a directory. -/
def open_dicom (e : DicomEntry) : Except PyError DicomFile :=
  match e with
  | .directory => .error .isADirectoryError
  | .notDicom => .error .invalidDicomError
  | .dicom f => .ok f

/-- `_get_raw_timestamp(raw_file)`:
`raw_file.pages[0].tags[the datetime key].value.decode(ascii)` then `strptime`.
A missing tag raises `KeyError`; undecodable bytes raise `UnicodeDecodeError`
(a `ValueError`); an unparsable string raises `ValueError`. -/
def get_raw_timestamp (data : TiffData) : Except PyError Int :=
  match data.datetimeTag with
  | none => .error .keyError
  | some .undecodable => .error .valueError
  | some (.str s) =>
    match strptime s with
    | some t => .ok t
    | none => .error .valueError

/-- `open_raw` followed by `_get_raw_timestamp` on a candidate entry. -/
def raw_timestamp_of (e : RawEntry) : Except PyError Int :=
  match e with
  | .directory => .error .isADirectoryError
  | .notTiff => .error .valueError
  | .tiff data => get_raw_timestamp data

/-- `_get_dicom_timestamp(dicom_file)`: if the dataset has no
`AcquisitionDate` attribute, return `None`; otherwise read slices of
`AcquisitionDate` and `AcquisitionTime` (accessing an absent
`AcquisitionTime` raises `AttributeError`), format them as
`Y:m:d H:M:S` and parse with `strptime` (`ValueError` if malformed). -/
def get_dicom_timestamp (f : DicomFile) : Except PyError (Option Int) :=
  match f.acquisitionDate with
  | none => .ok none
  | some date =>
    match f.acquisitionTime with
    | none => .error .attributeError
    | some time =>
      let s := pySlice date 0 4 ++ ":" ++ pySlice date 4 6 ++ ":" ++ pySlice date 6 8
        ++ " " ++ pySlice time 0 2 ++ ":" ++ pySlice time 2 4 ++ ":" ++ pySlice time 4 6
      match strptime s with
      | some t => .ok (some t)
      | none => .error .valueError

/-- `_get_dicom_comment(dicom_file)`. -/
def get_dicom_comment (f : DicomFile) : Option String :=
  f.imageComments

/-! ### The tolerance comparison -/

/-- Python's `max([a, b])`: start from `a`, replace by `b` iff `b > a`. -/
def pymax (a b : Int) : Int :=
  if b > a then b else a

/-- Python's `min([a, b])`: start from `a`, replace by `b` iff `b < a`. -/
def pymin (a b : Int) : Int :=
  if b < a then b else a

/-- `max([a, b]) - min([a, b])`, the symmetric time difference (a `timedelta`,
in microseconds) that both matcher loops and `print_comparison` compute. -/
def time_diff (a b : Int) : Int :=
  pymax a b - pymin a b

/-- `timedelta.total_seconds()` of a delta of `d` microseconds, as the exact
rational `d / 10^6` it denotes. -/
def total_seconds (d : Int) : ℚ :=
  (d : ℚ) / 1000000

/-- The acceptance test of both matcher loops:
`time_diff.total_seconds() < 2.0`, i.e. the delta is under 2·10^6 µs. -/
def tolerance_match (a b : Int) : Bool :=
  time_diff a b < 2 * 1000000

/-- The test `print_comparison` uses to colour the delta: red iff
`time_diff.total_seconds() > 2`, green otherwise (delta at most 2·10^6 µs).
`true` means green, i.e. displayed as compatible. -/
def comparison_green (a b : Int) : Bool :=
  ¬time_diff a b > 2 * 1000000

/-! ### The matchers

A directory listing (`os.listdir`) is a list of (filename, entry) pairs in
listing order. -/

/-- Whether a `try` block guarded by
`except (ValueError, IsADirectoryError)` catches error `e` — the clause of
the candidate loop in `_find_matching_files_dicom_to_raw`. -/
def caught_by_value_or_isadir (e : PyError) : Bool :=
  e = .valueError ∨ e = .isADirectoryError

/-- Whether a `try` block guarded by
`except (dicom.errors.InvalidDicomError, IsADirectoryError)` catches error
`e` — the clause of `match_directories` and of the loop in
`_find_matching_files_raw_to_dicom`. -/
def caught_by_dicom_or_isadir (e : PyError) : Bool :=
  e = .invalidDicomError ∨ e = .isADirectoryError

/-- The candidate loop of `_find_matching_files_dicom_to_raw`, run with the
already-computed reference timestamp `dicom_time` (which is `none` when the
reference dataset had no `AcquisitionDate`).  Per candidate: `open_raw`,
`_get_raw_timestamp`, then `max - min` and the `< 2.0` test;
`ValueError`/`IsADirectoryError` are caught and the candidate skipped, any
other exception propagates (`max([None, t])` raises `TypeError`). -/
def scan_raw_dir (dicom_time : Option Int) :
    List (String × RawEntry) → Except PyError (List String)
  | [] => .ok []
  | (raw_filename, entry) :: rest =>
    match raw_timestamp_of entry with
    | .error e =>
      if caught_by_value_or_isadir e then scan_raw_dir dicom_time rest
      else .error e
    | .ok raw_time =>
      match dicom_time with
      | none => .error .typeError
      | some dt =>
        match scan_raw_dir dicom_time rest with
        | .error e => .error e
        | .ok ms =>
          .ok (if tolerance_match dt raw_time then raw_filename :: ms else ms)

/-- `_find_matching_files_dicom_to_raw(dicom_file, raw_dir)`: extract the
reference timestamp (exceptions from `_get_dicom_timestamp` are raised
outside the loop and propagate), then scan the candidate directory. -/
def find_matching_files_dicom_to_raw (dicom_file : DicomFile)
    (raw_dir : List (String × RawEntry)) : Except PyError (List String) :=
  match get_dicom_timestamp dicom_file with
  | .error e => .error e
  | .ok dicom_time => scan_raw_dir dicom_time raw_dir

/-- The loop of `_find_matching_files_raw_to_dicom`, run with the
already-computed reference timestamp `raw_time`.  Per candidate:
`open_dicom`, `_get_dicom_timestamp`, then the `< 2.0` test; only
`InvalidDicomError`/`IsADirectoryError` are caught, so a malformed DICOM
timestamp (`ValueError`), a date without a time (`AttributeError`) or a
`None` timestamp (`TypeError` at `max`) propagates. -/
def scan_dicom_dir (raw_time : Int) :
    List (String × DicomEntry) → Except PyError (List String)
  | [] => .ok []
  | (dicom_filename, entry) :: rest =>
    match (open_dicom entry).bind get_dicom_timestamp with
    | .error e =>
      if caught_by_dicom_or_isadir e then scan_dicom_dir raw_time rest
      else .error e
    | .ok none => .error .typeError
    | .ok (some dicom_time) =>
      match scan_dicom_dir raw_time rest with
      | .error e => .error e
      | .ok ms =>
        .ok (if tolerance_match dicom_time raw_time then dicom_filename :: ms else ms)

/-- `_find_matching_files_raw_to_dicom(raw_file, dicom_dir)`: extract the
reference timestamp from the already-opened TIFF (its exceptions propagate),
then scan the DICOM directory. -/
def find_matching_files_raw_to_dicom (raw_file : TiffData)
    (dicom_dir : List (String × DicomEntry)) : Except PyError (List String) :=
  match get_raw_timestamp raw_file with
  | .error e => .error e
  | .ok raw_time => scan_dicom_dir raw_time dicom_dir

/-- `match_directories(dicom_dir, raw_dir)` exactly as written: for each
reference filename, `open_dicom` (with `InvalidDicomError`/`IsADirectoryError`
caught, skipping the file), then the call `_find_matching_files(...)` — a
name defined nowhere in the module, so the call raises `NameError`, which the
`except` clause does not catch. -/
def match_directories (dicom_dir : List (String × DicomEntry))
    (raw_dir : List (String × RawEntry)) :
    Except PyError (List (String × List String)) :=
  match dicom_dir with
  | [] => .ok []
  | (_dicom_filename, entry) :: rest =>
    match open_dicom entry with
    | .error e =>
      if caught_by_dicom_or_isadir e then match_directories rest raw_dir
      else .error e
    | .ok _ => .error .nameError

/-- `match_directories` with its one dead name repaired: the call to the
undefined `_find_matching_files` replaced by
`_find_matching_files_dicom_to_raw`, the renamed matcher the surrounding code
clearly intends.  Errors raised by the matcher call other than
`InvalidDicomError`/`IsADirectoryError` still propagate. -/
def match_directories_repaired (dicom_dir : List (String × DicomEntry))
    (raw_dir : List (String × RawEntry)) :
    Except PyError (List (String × List String)) :=
  match dicom_dir with
  | [] => .ok []
  | (dicom_filename, entry) :: rest =>
    match open_dicom entry with
    | .error e =>
      if caught_by_dicom_or_isadir e then match_directories_repaired rest raw_dir
      else .error e
    | .ok dicom_file =>
      match find_matching_files_dicom_to_raw dicom_file raw_dir with
      | .error e =>
        if caught_by_dicom_or_isadir e then match_directories_repaired rest raw_dir
        else .error e
      | .ok ms =>
        match match_directories_repaired rest raw_dir with
        | .error e => .error e
        | .ok m => .ok ((dicom_filename, ms) :: m)

/-- The observable outcome of `print_comparison`: an early-return warning
naming the offending file, or the full report line with both timestamps, the
delta, and whether the delta is printed green. -/
inductive ComparisonOutput
  | warning_not_dicom (filename : String)
  | warning_not_raw (filename : String)
  | report (dicom_time raw_time delta : Int) (green : Bool)
  deriving DecidableEq, Repr

/-- `print_comparison(dicom_filename, raw_filename)`: `open_dicom` guarded
only by `except InvalidDicomError` (early warning return); `open_raw` guarded
only by `except ValueError` (early warning return); then
`_get_dicom_timestamp`, `_get_raw_timestamp` and `max - min` run unguarded,
so a directory path, an absent-timestamp DICOM (`TypeError`), a missing TIFF
tag (`KeyError`), a date without a time (`AttributeError`) or a malformed
timestamp (`ValueError`) propagates. -/
def print_comparison (dicom_filename : String) (dicom_entry : DicomEntry)
    (raw_filename : String) (raw_entry : RawEntry) :
    Except PyError ComparisonOutput :=
  match dicom_entry with
  | .notDicom => .ok (.warning_not_dicom dicom_filename)
  | .directory => .error .isADirectoryError
  | .dicom dicom_data =>
    match raw_entry with
    | .notTiff => .ok (.warning_not_raw raw_filename)
    | .directory => .error .isADirectoryError
    | .tiff raw_data =>
      match get_dicom_timestamp dicom_data with
      | .error e => .error e
      | .ok dicom_time =>
        match get_raw_timestamp raw_data with
        | .error e => .error e
        | .ok raw_time =>
          match dicom_time with
          | none => .error .typeError
          | some dt =>
            .ok (.report dt raw_time (time_diff dt raw_time) (comparison_green dt raw_time))

/-! ### Sample records used in concrete instantiations -/

/-- A DICOM dataset with `AcquisitionDate = 20170615`,
`AcquisitionTime = 093005`. -/
def sample_dicom : DicomFile :=
  { acquisitionDate := some "20170615", acquisitionTime := some "093005",
    imageComments := none }

/-- A DICOM dataset with no `AcquisitionDate` attribute. -/
def dateless_dicom : DicomFile :=
  { acquisitionDate := none, acquisitionTime := none, imageComments := none }

/-- A TIFF whose first page's datetime tag reads `2017:06:15 09:30:06`. -/
def sample_tiff_0930_06 : TiffData :=
  { datetimeTag := some (.str "2017:06:15 09:30:06") }

/-- A TIFF whose first page's datetime tag reads `2017:06:15 09:30:08`. -/
def sample_tiff_0930_08 : TiffData :=
  { datetimeTag := some (.str "2017:06:15 09:30:08") }

/-- A TIFF whose first page has no datetime tag. -/
def tagless_tiff : TiffData :=
  { datetimeTag := none }

/-- A DICOM dataset with an `AcquisitionDate` but no `AcquisitionTime`. -/
def timeless_dicom : DicomFile :=
  { acquisitionDate := some "20170615", acquisitionTime := none,
    imageComments := none }

/-- Whether the candidate loop accepts entry `e` against an already-extracted
reference timestamp `dt`: the candidate's timestamp extracts successfully and
lies within tolerance of `dt`. -/
def accepted_candidate (dt : Int) (e : RawEntry) : Bool :=
  match raw_timestamp_of e with
  | .ok t => tolerance_match dt t
  | .error _ => false

/-! ### Helper lemmas -/

lemma time_diff_eq_abs (a b : Int) : time_diff a b = |a - b| := by
  unfold time_diff pymax pymin
  rw [Int.abs_eq_natAbs]
  split_ifs <;> omega

lemma tolerance_match_iff (a b : Int) :
    tolerance_match a b = true ↔ total_seconds (time_diff a b) < 2 := by
  unfold tolerance_match total_seconds
  rw [decide_eq_true_eq, div_lt_iff₀ (by norm_num : (0 : ℚ) < 1000000)]
  constructor <;> intro h <;> exact_mod_cast h

lemma comparison_green_iff (a b : Int) :
    comparison_green a b = true ↔ total_seconds (time_diff a b) ≤ 2 := by
  unfold comparison_green total_seconds
  rw [decide_eq_true_eq, div_le_iff₀ (by norm_num : (0 : ℚ) < 1000000), not_lt]
  constructor <;> intro h <;> exact_mod_cast h

lemma raw_timestamp_of_error (e : RawEntry) (x : PyError)
    (h : raw_timestamp_of e = .error x) :
    x = .isADirectoryError ∨ x = .valueError ∨ x = .keyError := by
  cases e with
  | directory =>
    simp only [raw_timestamp_of, Except.error.injEq] at h
    exact Or.inl h.symm
  | notTiff =>
    simp only [raw_timestamp_of, Except.error.injEq] at h
    exact Or.inr (Or.inl h.symm)
  | tiff data =>
    obtain ⟨tag⟩ := data
    cases tag with
    | none =>
      simp only [raw_timestamp_of, get_raw_timestamp, Except.error.injEq] at h
      exact Or.inr (Or.inr h.symm)
    | some v =>
      cases v with
      | undecodable =>
        simp only [raw_timestamp_of, get_raw_timestamp, Except.error.injEq] at h
        exact Or.inr (Or.inl h.symm)
      | str s =>
        simp only [raw_timestamp_of, get_raw_timestamp] at h
        split at h
        · exact absurd h (by simp)
        · simp only [Except.error.injEq] at h
          exact Or.inr (Or.inl h.symm)

lemma scan_raw_dir_ok_mem (dt : Option Int) (pool : List (String × RawEntry))
    (l : List String) (h : scan_raw_dir dt pool = .ok l) :
    ∀ x ∈ l, x ∈ pool.map Prod.fst := by
  induction pool generalizing l with
  | nil =>
    simp only [scan_raw_dir, Except.ok.injEq] at h
    subst h
    simp
  | cons p rest ih =>
    obtain ⟨name, entry⟩ := p
    simp only [scan_raw_dir] at h
    cases hr : raw_timestamp_of entry with
    | error e =>
      rw [hr] at h
      simp only at h
      by_cases hc : caught_by_value_or_isadir e = true
      · rw [if_pos hc] at h
        intro x hx
        exact List.mem_cons_of_mem _ (ih l h x hx)
      · rw [if_neg hc] at h
        exact absurd h (by simp)
    | ok t =>
      rw [hr] at h
      cases dt with
      | none => exact absurd h (by simp)
      | some d =>
        simp only at h
        cases hs : scan_raw_dir (some d) rest with
        | error e => rw [hs] at h; exact absurd h (by simp)
        | ok ms =>
          rw [hs] at h
          simp only [Except.ok.injEq] at h
          subst h
          intro x hx
          by_cases ht : tolerance_match d t = true
          · rw [if_pos ht] at hx
            rcases List.mem_cons.mp hx with rfl | hx'
            · exact List.mem_cons_self _ _
            · exact List.mem_cons_of_mem _ (ih ms hs x hx')
          · rw [if_neg ht] at hx
            exact List.mem_cons_of_mem _ (ih ms hs x hx)

lemma scan_raw_dir_some_eq_filter (d : Int) (pool : List (String × RawEntry))
    (l : List String) (h : scan_raw_dir (some d) pool = .ok l) :
    l = (pool.filter (fun p => accepted_candidate d p.2)).map Prod.fst := by
  induction pool generalizing l with
  | nil =>
    simp only [scan_raw_dir, Except.ok.injEq] at h
    subst h
    simp
  | cons p rest ih =>
    obtain ⟨name, entry⟩ := p
    simp only [scan_raw_dir] at h
    cases hr : raw_timestamp_of entry with
    | error e =>
      rw [hr] at h
      simp only at h
      by_cases hc : caught_by_value_or_isadir e = true
      · rw [if_pos hc] at h
        have hacc : accepted_candidate d entry = false := by
          unfold accepted_candidate
          rw [hr]
        simp only [List.filter_cons, hacc]
        exact ih l h
      · rw [if_neg hc] at h
        exact absurd h (by simp)
    | ok t =>
      rw [hr] at h
      simp only at h
      cases hs : scan_raw_dir (some d) rest with
      | error e => rw [hs] at h; exact absurd h (by simp)
      | ok ms =>
        rw [hs] at h
        simp only [Except.ok.injEq] at h
        subst h
        have hacc : accepted_candidate d entry = tolerance_match d t := by
          unfold accepted_candidate
          rw [hr]
        by_cases ht : tolerance_match d t = true
        · rw [if_pos ht, List.filter_cons, hacc, if_pos ht, List.map_cons, ih ms hs]
        · rw [if_neg ht, List.filter_cons, hacc, if_neg ht]
          exact ih ms hs

lemma scan_raw_dir_some_total (d : Int) (pool : List (String × RawEntry))
    (h : ∀ p ∈ pool, raw_timestamp_of p.2 ≠ .error .keyError) :
    scan_raw_dir (some d) pool =
      .ok ((pool.filter (fun p => accepted_candidate d p.2)).map Prod.fst) := by
  induction pool with
  | nil => rfl
  | cons p rest ih =>
    obtain ⟨name, entry⟩ := p
    have hrest : ∀ q ∈ rest, raw_timestamp_of q.2 ≠ .error .keyError := by
      intro q hq
      exact h q (List.mem_cons_of_mem _ hq)
    simp only [scan_raw_dir]
    cases hr : raw_timestamp_of entry with
    | error e =>
      have hcases := raw_timestamp_of_error entry e hr
      have hne : e ≠ .keyError := by
        intro he
        exact h (name, entry) (List.mem_cons_self _ _) (by rw [hr, he])
      have hc : caught_by_value_or_isadir e = true := by
        rcases hcases with h1 | h1 | h1
        · unfold caught_by_value_or_isadir
          rw [h1]
          decide
        · unfold caught_by_value_or_isadir
          rw [h1]
          decide
        · exact absurd h1 hne
      have hacc : accepted_candidate d entry = false := by
        unfold accepted_candidate
        rw [hr]
      simp [hc, List.filter_cons, hacc, ih hrest]
    | ok t =>
      have hacc : accepted_candidate d entry = tolerance_match d t := by
        unfold accepted_candidate
        rw [hr]
      by_cases ht : tolerance_match d t = true
      · simp [ih hrest, List.filter_cons, hacc, ht]
      · rw [Bool.not_eq_true] at ht
        simp [ih hrest, List.filter_cons, hacc, ht]

lemma match_directories_cases (dicom_dir : List (String × DicomEntry))
    (raw_dir : List (String × RawEntry)) :
    match_directories dicom_dir raw_dir = .error .nameError ∨
      match_directories dicom_dir raw_dir = .ok [] := by
  induction dicom_dir with
  | nil => exact Or.inr rfl
  | cons p rest ih =>
    obtain ⟨name, entry⟩ := p
    cases entry with
    | directory => exact ih
    | notDicom => exact ih
    | dicom f => exact Or.inl rfl

lemma find_matching_ok_mem (f : DicomFile) (raw_dir : List (String × RawEntry))
    (l : List String) (h : find_matching_files_dicom_to_raw f raw_dir = .ok l) :
    ∀ x ∈ l, x ∈ raw_dir.map Prod.fst := by
  unfold find_matching_files_dicom_to_raw at h
  cases hg : get_dicom_timestamp f with
  | error e => rw [hg] at h; exact absurd h (by simp)
  | ok dt =>
    rw [hg] at h
    simp only at h
    exact scan_raw_dir_ok_mem dt raw_dir l h

lemma match_directories_repaired_ok_mem (dicom_dir : List (String × DicomEntry))
    (raw_dir : List (String × RawEntry)) (m : List (String × List String))
    (h : match_directories_repaired dicom_dir raw_dir = .ok m) :
    ∀ kv ∈ m, kv.1 ∈ dicom_dir.map Prod.fst ∧
      ∀ c ∈ kv.2, c ∈ raw_dir.map Prod.fst := by
  induction dicom_dir generalizing m with
  | nil =>
    simp only [match_directories_repaired, Except.ok.injEq] at h
    subst h
    simp
  | cons p rest ih =>
    obtain ⟨name, entry⟩ := p
    simp only [match_directories_repaired] at h
    cases ho : open_dicom entry with
    | error e =>
      rw [ho] at h
      simp only at h
      by_cases hc : caught_by_dicom_or_isadir e = true
      · rw [if_pos hc] at h
        intro kv hkv
        obtain ⟨h1, h2⟩ := ih m h kv hkv
        exact ⟨List.mem_cons_of_mem _ h1, h2⟩
      · rw [if_neg hc] at h
        exact absurd h (by simp)
    | ok f =>
      rw [ho] at h
      simp only at h
      cases hf : find_matching_files_dicom_to_raw f raw_dir with
      | error e =>
        rw [hf] at h
        simp only at h
        by_cases hc : caught_by_dicom_or_isadir e = true
        · rw [if_pos hc] at h
          intro kv hkv
          obtain ⟨h1, h2⟩ := ih m h kv hkv
          exact ⟨List.mem_cons_of_mem _ h1, h2⟩
        · rw [if_neg hc] at h
          exact absurd h (by simp)
      | ok ms =>
        rw [hf] at h
        simp only at h
        cases hrec : match_directories_repaired rest raw_dir with
        | error e => rw [hrec] at h; exact absurd h (by simp)
        | ok m2 =>
          rw [hrec] at h
          simp only [Except.ok.injEq] at h
          subst h
          intro kv hkv
          rcases List.mem_cons.mp hkv with rfl | hkv'
          · exact ⟨List.mem_cons_self _ _, find_matching_ok_mem f raw_dir ms hf⟩
          · obtain ⟨h1, h2⟩ := ih m2 hrec kv hkv'
            exact ⟨List.mem_cons_of_mem _ h1, h2⟩

/-! ### Claims -/

/-- Claim C1, counterexample: a reference directory holding one DICOM file
with a perfectly valid timestamp, against an empty candidate directory, does
not yield a MatchSet keyed by that reference — `match_directories` raises
`NameError` (it calls the undefined `_find_matching_files`), so no MatchSet
with the claimed key set is ever returned. -/
theorem spec_c1_counterexample :
    get_dicom_timestamp sample_dicom = .ok (some (toMicros 2017 6 15 9 30 5)) ∧
    match_directories [("a.dcm", .dicom sample_dicom)] [] = .error .nameError :=
  ⟨by decide, by decide⟩

/-- Claim C1, amended: as written, `match_directories` raises `NameError` as
soon as any reference opens successfully, so the only MatchSet it can return
is the empty one; and with the dead call repaired to the renamed
`_find_matching_files_dicom_to_raw`, a reference with no extractable
timestamp is not omitted — against an empty candidate pool it is keyed to an
empty list, indistinguishable from a valid-timestamp reference with no
match. -/
theorem spec_c1_amended :
    (∀ (dicom_dir : List (String × DicomEntry)) (raw_dir : List (String × RawEntry)),
      match_directories dicom_dir raw_dir = .error .nameError ∨
        match_directories dicom_dir raw_dir = .ok []) ∧
    (∀ name : String,
      match_directories_repaired [(name, .dicom dateless_dicom)] [] = .ok [(name, [])]) :=
  ⟨match_directories_cases, fun _ => rfl⟩

/-- Claim C2, counterexample: a candidate TIFF whose first page lacks the
datetime tag raises `KeyError`, which the loop's
`except (ValueError, IsADirectoryError)` does not catch — the scan aborts
and the compatible candidate after it is never reported, even though alone
that candidate matches. -/
theorem spec_c2_counterexample :
    find_matching_files_dicom_to_raw sample_dicom
      [("bad.tif", .tiff tagless_tiff), ("good.tif", .tiff sample_tiff_0930_06)] =
        .error .keyError ∧
    find_matching_files_dicom_to_raw sample_dicom
      [("good.tif", .tiff sample_tiff_0930_06)] = .ok ["good.tif"] :=
  ⟨by decide, by decide⟩

/-- Claim C2, amended: provided no candidate's extraction raises `KeyError`
(missing datetime tag), every failing candidate — not a TIFF, a directory
entry, undecodable bytes, malformed timestamp, all raising `ValueError` or
`IsADirectoryError` — is skipped and the scan returns normally with exactly
the accepted candidates. -/
theorem spec_c2_amended (f : DicomFile) (dt : Int) (pool : List (String × RawEntry))
    (hf : get_dicom_timestamp f = .ok (some dt))
    (hp : ∀ p ∈ pool, raw_timestamp_of p.2 ≠ .error .keyError) :
    find_matching_files_dicom_to_raw f pool =
      .ok ((pool.filter (fun p => accepted_candidate dt p.2)).map Prod.fst) := by
  unfold find_matching_files_dicom_to_raw
  rw [hf]
  exact scan_raw_dir_some_total dt pool hp

/-- Witness for the amended claim C2: a directory entry and a non-TIFF file
in the pool are skipped, and the scan completes with the one good match. -/
theorem spec_c2_amended_witness :
    find_matching_files_dicom_to_raw sample_dicom
      [("sub", .directory), ("junk.txt", .notTiff),
        ("good.tif", .tiff sample_tiff_0930_06)] = .ok ["good.tif"] :=
  (spec_c2_amended sample_dicom (toMicros 2017 6 15 9 30 5)
    [("sub", .directory), ("junk.txt", .notTiff),
      ("good.tif", .tiff sample_tiff_0930_06)]
    (by decide) (by decide)).trans (by decide)

/-- Claim C3, counterexample: at a delta of exactly 2.0 seconds the two
matcher loops reject (`< 2.0`) but `print_comparison` colours the delta
green (`> 2` is required for red) — the boundary is not treated
consistently across the operations that decide compatibility. -/
theorem spec_c3_counterexample :
    tolerance_match 0 2000000 = false ∧ comparison_green 0 2000000 = true ∧
    total_seconds (time_diff 0 2000000) = 2 :=
  ⟨by decide, by decide, by norm_num [total_seconds, time_diff, pymax, pymin]⟩

/-- Claim C3, amended: the matcher loops accept exactly when the delta is
strictly under 2.0 seconds (1.99 s accepted; 2.0 s and 2.01 s rejected), but
`print_comparison` displays green exactly when the delta is at most 2.0
seconds, so the two disagree at exactly 2.0 s. -/
theorem spec_c3_amended :
    (∀ a b : Int, tolerance_match a b = true ↔ total_seconds (time_diff a b) < 2) ∧
    (∀ a b : Int, comparison_green a b = true ↔ total_seconds (time_diff a b) ≤ 2) ∧
    tolerance_match 0 1990000 = true ∧ tolerance_match 0 2000000 = false ∧
    tolerance_match 0 2010000 = false ∧ comparison_green 0 2000000 = true :=
  ⟨tolerance_match_iff, comparison_green_iff, by decide, by decide, by decide, by decide⟩

/-- Claim C4, counterexample: at a delta of exactly 2.0 seconds the claimed
inclusive bound `|a - b| ≤ τ` holds, yet the matcher rejects the pair — the
source compares with strict `< 2.0`. -/
theorem spec_c4_counterexample :
    total_seconds (time_diff 0 2000000) ≤ 2 ∧ tolerance_match 0 2000000 = false :=
  ⟨by norm_num [total_seconds, time_diff, pymax, pymin], by decide⟩

/-- Claim C4, amended: two timestamps are compatible under the fixed
tolerance iff the absolute difference is strictly less than 2.0 seconds. -/
theorem spec_c4_amended :
    ∀ a b : Int, tolerance_match a b = true ↔ total_seconds |a - b| < 2 := by
  intro a b
  rw [← time_diff_eq_abs a b]
  exact tolerance_match_iff a b

/-- Claim C5: compatibility is symmetric, because the compared delta
`max([a, b]) - min([a, b])` is the absolute difference `|a - b|`. -/
theorem spec_c5_symmetric :
    ∀ a b : Int, tolerance_match a b = tolerance_match b a ∧ time_diff a b = |a - b| := by
  intro a b
  refine ⟨?_, time_diff_eq_abs a b⟩
  unfold tolerance_match
  rw [time_diff_eq_abs, time_diff_eq_abs, abs_sub_comm]

/-- Claim C6, counterexample: a DICOM dataset with an acquisition date but
no acquisition time does not yield the Absent outcome (`None`): accessing
the missing `AcquisitionTime` attribute raises `AttributeError`. -/
theorem spec_c6_counterexample :
    get_dicom_timestamp timeless_dicom = .error .attributeError ∧
    (Except.error .attributeError : Except PyError (Option Int)) ≠ .ok none :=
  ⟨by decide, by decide⟩

/-- Claim C6, amended: only an absent `AcquisitionDate` yields the Absent
outcome (`None`); a present date with an absent `AcquisitionTime` raises
`AttributeError` instead. -/
theorem spec_c6_amended (f : DicomFile) :
    (f.acquisitionDate = none → get_dicom_timestamp f = .ok none) ∧
    (∀ d, f.acquisitionDate = some d → f.acquisitionTime = none →
      get_dicom_timestamp f = .error .attributeError) := by
  constructor
  · intro h
    unfold get_dicom_timestamp
    rw [h]
  · intro d hd ht
    unfold get_dicom_timestamp
    rw [hd, ht]

/-- Witness for the amended claim C6, at a dataset with no date and at a
dataset with a date but no time. -/
theorem spec_c6_amended_witness :
    get_dicom_timestamp dateless_dicom = .ok none ∧
    get_dicom_timestamp timeless_dicom = .error .attributeError :=
  ⟨(spec_c6_amended dateless_dicom).1 rfl,
    (spec_c6_amended timeless_dicom).2 "20170615" rfl rfl⟩

/-- Claim C7, counterexample: `print_comparison` crashes with an uncaught
`TypeError` on a DICOM file with no acquisition timestamp, and with an
uncaught `KeyError` on a TIFF file missing its datetime tag — neither
failure is reported gracefully. -/
theorem spec_c7_counterexample :
    print_comparison "a.dcm" (.dicom dateless_dicom) "b.tif" (.tiff sample_tiff_0930_06) =
      .error .typeError ∧
    print_comparison "a.dcm" (.dicom sample_dicom) "b.tif" (.tiff tagless_tiff) =
      .error .keyError :=
  ⟨by decide, by decide⟩

/-- Claim C7, amended: `print_comparison` handles exactly two failures
gracefully, each identifying the failing side — a non-DICOM reference and a
non-TIFF candidate; when both extractions succeed it reports the two
timestamps, their delta and the colour; every other extraction failure
escapes as an uncaught exception. -/
theorem spec_c7_amended :
    (∀ (dn rn : String) (re : RawEntry),
      print_comparison dn .notDicom rn re = .ok (.warning_not_dicom dn)) ∧
    (∀ (dn rn : String) (f : DicomFile),
      print_comparison dn (.dicom f) rn .notTiff = .ok (.warning_not_raw rn)) ∧
    (∀ (dn rn : String) (f : DicomFile) (g : TiffData) (t u : Int),
      get_dicom_timestamp f = .ok (some t) → get_raw_timestamp g = .ok u →
      print_comparison dn (.dicom f) rn (.tiff g) =
        .ok (.report t u (time_diff t u) (comparison_green t u))) := by
  refine ⟨fun dn rn re => rfl, fun dn rn f => rfl, ?_⟩
  intro dn rn f g t u h1 h2
  unfold print_comparison
  simp [h1, h2]

/-- Witness for the amended claim C7: the successful report on the sample
pair. -/
theorem spec_c7_amended_witness :
    print_comparison "a.dcm" (.dicom sample_dicom) "b.tif" (.tiff sample_tiff_0930_06) =
      .ok (.report (toMicros 2017 6 15 9 30 5) (toMicros 2017 6 15 9 30 6)
        (time_diff (toMicros 2017 6 15 9 30 5) (toMicros 2017 6 15 9 30 6))
        (comparison_green (toMicros 2017 6 15 9 30 5) (toMicros 2017 6 15 9 30 6))) :=
  spec_c7_amended.2.2 "a.dcm" "b.tif" sample_dicom sample_tiff_0930_06
    (toMicros 2017 6 15 9 30 5) (toMicros 2017 6 15 9 30 6) (by decide) (by decide)

/-- Claim C8: the DICOM record with date 20170615 and time 093005 extracts
to 09:30:05; the TIFF datetime 2017:06:15 09:30:06 is at delta exactly 1
second and matches; the TIFF datetime 2017:06:15 09:30:08 is at delta
exactly 3 seconds and does not match. -/
theorem spec_c8_scenarios :
    get_dicom_timestamp sample_dicom = .ok (some (toMicros 2017 6 15 9 30 5)) ∧
    get_raw_timestamp sample_tiff_0930_06 = .ok (toMicros 2017 6 15 9 30 6) ∧
    get_raw_timestamp sample_tiff_0930_08 = .ok (toMicros 2017 6 15 9 30 8) ∧
    time_diff (toMicros 2017 6 15 9 30 5) (toMicros 2017 6 15 9 30 6) = 1000000 ∧
    total_seconds 1000000 = 1 ∧
    tolerance_match (toMicros 2017 6 15 9 30 5) (toMicros 2017 6 15 9 30 6) = true ∧
    time_diff (toMicros 2017 6 15 9 30 5) (toMicros 2017 6 15 9 30 8) = 3000000 ∧
    total_seconds 3000000 = 3 ∧
    tolerance_match (toMicros 2017 6 15 9 30 5) (toMicros 2017 6 15 9 30 8) = false :=
  ⟨by decide, by decide, by decide, by decide, by norm_num [total_seconds],
    by decide, by decide, by norm_num [total_seconds], by decide⟩

/-- Claim C9: whenever the candidate scan returns a list, that list is
exactly the accepted candidates in listing order — the filter of the input
listing, hence a sublist of it: no sorting, no best-match selection, ties
all kept. -/
theorem spec_c9_order (f : DicomFile) (dt : Int) (pool : List (String × RawEntry))
    (l : List String) (hf : get_dicom_timestamp f = .ok (some dt))
    (h : find_matching_files_dicom_to_raw f pool = .ok l) :
    l = (pool.filter (fun p => accepted_candidate dt p.2)).map Prod.fst ∧
      l.Sublist (pool.map Prod.fst) := by
  unfold find_matching_files_dicom_to_raw at h
  rw [hf] at h
  simp only at h
  have hl := scan_raw_dir_some_eq_filter dt pool l h
  refine ⟨hl, ?_⟩
  rw [hl]
  exact List.Sublist.map Prod.fst (List.filter_sublist _)

/-- Witness for claim C9: two candidates within tolerance, separated by a
skipped non-TIFF, are both returned, in listing order. -/
theorem spec_c9_order_witness :
    (["a.tif", "b.tif"] : List String) =
      (([("a.tif", RawEntry.tiff sample_tiff_0930_06), ("x", RawEntry.notTiff),
          ("b.tif", RawEntry.tiff sample_tiff_0930_06)].filter
        (fun p => accepted_candidate (toMicros 2017 6 15 9 30 5) p.2)).map Prod.fst) ∧
      List.Sublist ["a.tif", "b.tif"]
        ([("a.tif", RawEntry.tiff sample_tiff_0930_06), ("x", RawEntry.notTiff),
          ("b.tif", RawEntry.tiff sample_tiff_0930_06)].map Prod.fst) :=
  spec_c9_order sample_dicom (toMicros 2017 6 15 9 30 5)
    [("a.tif", RawEntry.tiff sample_tiff_0930_06), ("x", RawEntry.notTiff),
      ("b.tif", RawEntry.tiff sample_tiff_0930_06)]
    ["a.tif", "b.tif"] (by decide) (by decide)

/-- Claim C10: any MatchSet either version of the directory matcher returns
draws its keys from the reference listing and its candidate lists from the
candidate listing. -/
theorem spec_c10_results_within_listings
    (dicom_dir : List (String × DicomEntry)) (raw_dir : List (String × RawEntry))
    (m : List (String × List String)) :
    (match_directories dicom_dir raw_dir = .ok m →
      ∀ kv ∈ m, kv.1 ∈ dicom_dir.map Prod.fst ∧ ∀ c ∈ kv.2, c ∈ raw_dir.map Prod.fst) ∧
    (match_directories_repaired dicom_dir raw_dir = .ok m →
      ∀ kv ∈ m, kv.1 ∈ dicom_dir.map Prod.fst ∧ ∀ c ∈ kv.2, c ∈ raw_dir.map Prod.fst) := by
  constructor
  · intro h
    rcases match_directories_cases dicom_dir raw_dir with hc | hc
    · rw [hc] at h
      exact absurd h (by simp)
    · rw [hc] at h
      simp only [Except.ok.injEq] at h
      subst h
      simp
  · exact match_directories_repaired_ok_mem dicom_dir raw_dir m

/-- Witness for claim C10: a returned key and a returned candidate are
members of the respective listings. -/
theorem spec_c10_witness :
    "a.dcm" ∈ ([("a.dcm", DicomEntry.dicom sample_dicom)].map Prod.fst) ∧
    "a.tif" ∈ ([("a.tif", RawEntry.tiff sample_tiff_0930_06)].map Prod.fst) := by
  have h := (spec_c10_results_within_listings [("a.dcm", .dicom sample_dicom)]
    [("a.tif", .tiff sample_tiff_0930_06)] [("a.dcm", ["a.tif"])]).2 (by decide)
  have h2 := h ("a.dcm", ["a.tif"]) (by simp)
  exact ⟨h2.1, h2.2 "a.tif" (by simp)⟩

end MatchDicom
